import Mathlib

/-!
Verification of the client-side upload-and-render flow.

The development shallowly embeds the two source files:
- the main script (form submit handlers for the job-description and resume
  forms, the analysis result renderer, and the alert display), and
- the chart script (candidate score chart construction).

JavaScript promise chains of the form
fetch(...).then(ok-check).then(success).catch(fail).finally(cleanup)
are modelled as a total function from the fetch outcome (network error, or a
response with an HTTP status and a possibly-unparseable JSON body) and an
initial DOM state to a settled DOM state, together with flags recording which
chain handlers ran.  JavaScript values occurring in analysis fields are
modelled by a small value universe with JS truthiness; DOM elements that the
code looks up and null-checks are modelled as Option-valued fields.
-/

/-- A JavaScript value as it can occur in an analysis payload field.
Arrays of strings are the well-formed case; the other constructors model
malformed or absent field values. -/
inductive JVal where
  | undef
  | null
  | boolean (b : Bool)
  | number (n : Int)
  | string (s : String)
  | array (xs : List String)
deriving DecidableEq

/-- JavaScript truthiness: undefined, null, false, 0 and the empty string are
falsy; every other value (including the empty array) is truthy. -/
def jsTruthy : JVal → Bool
  | .undef => false
  | .null => false
  | .boolean b => b
  | .number n => n != 0
  | .string s => s != ""
  | .array _ => true

/-- Models the defaulting expression `v || []` from populateJdResults. -/
def jsOrEmptyArray (v : JVal) : JVal :=
  if jsTruthy v then v else .array []

/-- Models reading `v.length`: throws on null and undefined, yields the length
for strings and arrays, and yields no value (JS undefined) for numbers and
booleans. -/
def jsLength : JVal → Except Unit (Option Nat)
  | .undef => .error ()
  | .null => .error ()
  | .boolean _ => .ok none
  | .number _ => .ok none
  | .string s => .ok (some s.length)
  | .array xs => .ok (some xs.length)

/-- Whether the value is an array. -/
def JVal.isArr : JVal → Bool
  | .array _ => true
  | _ => false

/-- A DOM element node: tag name, class attribute, text content and child
nodes.  Assigning textContent stores the string verbatim and leaves the node
without element children; markup inside the string is not parsed. -/
inductive Node where
  | mk (tag : String) (className : String) (text : String) (children : List Node)

/-- Tag name of a node. -/
def Node.tag : Node → String
  | .mk t _ _ _ => t

/-- Class attribute of a node. -/
def Node.className : Node → String
  | .mk _ c _ _ => c

/-- Text content of a node. -/
def Node.text : Node → String
  | .mk _ _ t _ => t

/-- Child nodes of a node. -/
def Node.children : Node → List Node
  | .mk _ _ _ c => c

/-- The results container element: its class list and its child nodes. -/
structure Container where
  classes : List String
  children : List Node

/-- An alert element appended to the alerts container, recorded by its
severity level and message. -/
structure Alert where
  level : String
  message : String
deriving DecidableEq

/-- Models classList.add: appends the class if it is not already present. -/
def addClass (cls : String) (cs : List String) : List String :=
  if cs.contains cls then cs else cs ++ [cls]

/-- Models classList.remove: removes the class. -/
def removeClass (cls : String) (cs : List String) : List String :=
  cs.filter (fun c => c != cls)

/-- The DOM state observed and mutated by the two form handlers, the renderer,
the alert display, and navigation.  Elements that the source looks up and
null-checks (submit buttons, spinner containers, the alerts container, the
jd-results container) are Option-valued; none models their absence from the
document.  For the two spinner containers, the Bool records whether the
element currently carries the d-none class (true = hidden); for the submit
buttons it records the disabled flag. -/
structure Dom where
  jdSubmitBtn : Option Bool
  jdSpinner : Option Bool
  cvSubmitBtn : Option Bool
  cvSpinner : Option Bool
  alertsContainer : Option (List Alert)
  timers : List Nat
  jdResults : Option Container
  errorLog : Nat
  navTargets : List String
  requests : Nat

/-- Models showAlert: if the alerts container is absent, return immediately;
otherwise append an alert element with the given severity and message and
schedule a 5000 ms auto-dismiss timer. -/
def showAlert (type message : String) (d : Dom) : Dom :=
  match d.alertsContainer with
  | none => d
  | some alerts =>
      { d with
        alertsContainer := some (alerts ++ [⟨type, message⟩])
        timers := d.timers ++ [5000] }

/-- A list item created for one analysis item: textContent is the item string
verbatim and the element has no children. -/
def listItemNode (s : String) : Node :=
  .mk "li" "list-group-item" s []

/-- Models createAnalysisSection: a div with a heading, then either the
placeholder paragraph when `items.length === 0`, or an unordered list with one
list item per element.  Reading `.length` of null or undefined throws, and
`.forEach` on a non-array throws a TypeError, exactly as in JavaScript. -/
def createAnalysisSection (title : String) (items : JVal) : Except Unit Node := do
  let len ← jsLength items
  if len = some 0 then
    .ok (.mk "div" "mb-4" ""
      [.mk "h5" "" title [],
       .mk "p" "text-muted fst-italic" "No items detected" []])
  else
    match items with
    | .array xs =>
        .ok (.mk "div" "mb-4" ""
          [.mk "h5" "" title [],
           .mk "ul" "list-group" "" (xs.map listItemNode)])
    | _ => .error ()

/-- The analysis payload: the four fields read by populateJdResults, each an
arbitrary JavaScript value (undef models an absent key). -/
structure Analysis where
  skills : JVal
  experience : JVal
  qualifications : JVal
  responsibilities : JVal
deriving DecidableEq

/-- Builds the four sections in the fixed source order (skills, experience,
qualifications, responsibilities), each field defaulted through `|| []`. -/
def buildSections (a : Analysis) : Except Unit (List Node) := do
  let s1 ← createAnalysisSection "Required Skills" (jsOrEmptyArray a.skills)
  let s2 ← createAnalysisSection "Experience Requirements" (jsOrEmptyArray a.experience)
  let s3 ← createAnalysisSection "Qualifications" (jsOrEmptyArray a.qualifications)
  let s4 ← createAnalysisSection "Responsibilities" (jsOrEmptyArray a.responsibilities)
  .ok [s1, s2, s3, s4]

/-- Models populateJdResults: a missing container is a no-op; otherwise the
container is first cleared (innerHTML = empty), the four sections are built,
and on success they are appended and the container classes are updated
(add fade-in, then remove d-none).  If building a section throws, the
container is left cleared and the exception is reported in the second
component. -/
def populateJdResults (a : Analysis) (oc : Option Container) :
    Option Container × Option Unit :=
  match oc with
  | none => (none, none)
  | some c =>
      match buildSections a with
      | .error e => (some { c with children := [] }, some e)
      | .ok secs =>
          (some { classes := removeClass "d-none" (addClass "fade-in" c.classes)
                  children := secs }, none)

/-- The item nodes of a rendered section: the children of its unordered
list, if any. -/
def sectionItemNodes (n : Node) : List Node :=
  (n.children.filter (fun c => c.tag == "ul")).flatMap Node.children

/-- The outcome of one fetch call: the promise rejects (network failure), or
it fulfils with a response carrying an HTTP status and a body whose JSON
parse either succeeds with a value of type β or throws. -/
inductive FetchOutcome (β : Type) where
  | netError
  | response (status : Nat) (body : Except Unit β)

/-- Models response.ok: the HTTP status lies in the range 200 to 299. -/
def respOk (status : Nat) : Bool :=
  200 ≤ status && status < 300

/-- The first then-step of both chains: a rejected fetch propagates, a
response with a non-ok status throws, and otherwise the JSON parse result is
returned. -/
def parseStep {β : Type} (o : FetchOutcome β) : Except Unit β :=
  match o with
  | .netError => .error ()
  | .response st body => if respOk st then body else .error ()

/-- Whether the chain reaches the second then-step: an ok status and a body
that parses as JSON. -/
def parsedOk {β : Type} (o : FetchOutcome β) : Bool :=
  match o with
  | .response st (.ok _) => respOk st
  | _ => false

/-- The job-description success-response payload: an optional analysis
object (none models an absent or falsy `data.analysis`). -/
structure JdData where
  analysis : Option Analysis

/-- The resume success-response payload: an optional redirect string (none
models an absent `data.redirect`; note the source tests it for truthiness,
so an empty string also does not redirect). -/
structure CvData where
  redirect : Option String

/-- The job-description success handler: show the success alert, then, if the
jd-results container exists and the payload carries an analysis, populate the
container.  The second component records an exception thrown while
populating, which the surrounding chain passes on to its catch-step. -/
def jdSuccess (data : JdData) (d : Dom) : Dom × Option Unit :=
  let d1 := showAlert "success" "Job description uploaded and analyzed successfully!" d
  match d1.jdResults, data.analysis with
  | some c, some a =>
      let r := populateJdResults a (some c)
      ({ d1 with jdResults := r.1 }, r.2)
  | _, _ => (d1, none)

/-- The fixed job-description failure message. -/
def jdFailMsg : String := "Failed to upload job description. Please try again."

/-- The job-description catch handler: log the error to the console and show
the fixed danger alert.  It issues no further request. -/
def jdCatch (d : Dom) : Dom :=
  showAlert "danger" jdFailMsg { d with errorLog := d.errorLog + 1 }

/-- The job-description finally handler: re-enable the submit button and hide
the spinner, each only if present. -/
def jdFinally (d : Dom) : Dom :=
  { d with
    jdSubmitBtn := d.jdSubmitBtn.map (fun _ => false)
    jdSpinner := d.jdSpinner.map (fun _ => true) }

/-- The resume success handler: show the success alert and, if the payload
carries a truthy redirect target, assign window.location.href once. -/
def cvSuccess (data : CvData) (d : Dom) : Dom :=
  let d1 := showAlert "success" "Resume uploaded and analyzed successfully!" d
  match data.redirect with
  | some url => if url = "" then d1 else { d1 with navTargets := d1.navTargets ++ [url] }
  | none => d1

/-- The fixed resume failure message. -/
def cvFailMsg : String := "Failed to upload resume. Please try again."

/-- The resume catch handler: log the error to the console and show the fixed
danger alert.  It issues no further request. -/
def cvCatch (d : Dom) : Dom :=
  showAlert "danger" cvFailMsg { d with errorLog := d.errorLog + 1 }

/-- The resume finally handler: re-enable the submit button and hide the
spinner, each only if present. -/
def cvFinally (d : Dom) : Dom :=
  { d with
    cvSubmitBtn := d.cvSubmitBtn.map (fun _ => false)
    cvSpinner := d.cvSpinner.map (fun _ => true) }

/-- The settled state of one submission: the DOM after the whole chain, and
which handlers ran.  successRan records that the success then-handler was
entered, successThrew that it threw part-way, failureRan that the catch
handler ran. -/
structure Settled where
  dom : Dom
  successRan : Bool
  successThrew : Bool
  failureRan : Bool

/-- One job-description form submission with a given fetch outcome: disable
the button, reveal the spinner, issue the single request, then run the
promise chain then-then-catch-finally with JavaScript semantics (the catch
handler runs exactly when an earlier step rejected or threw; the finally
handler runs unconditionally). -/
def jdSubmit (o : FetchOutcome JdData) (d : Dom) : Settled :=
  let d0 := { d with
    jdSubmitBtn := d.jdSubmitBtn.map (fun _ => true)
    jdSpinner := d.jdSpinner.map (fun _ => false)
    requests := d.requests + 1 }
  match parseStep o with
  | .error _ =>
      { dom := jdFinally (jdCatch d0), successRan := false
        successThrew := false, failureRan := true }
  | .ok data =>
      let r := jdSuccess data d0
      match r.2 with
      | none =>
          { dom := jdFinally r.1, successRan := true
            successThrew := false, failureRan := false }
      | some _ =>
          { dom := jdFinally (jdCatch r.1), successRan := true
            successThrew := true, failureRan := true }

/-- One resume form submission with a given fetch outcome, with the same
chain semantics as the job-description form.  Its success handler contains no
throwing step. -/
def cvSubmit (o : FetchOutcome CvData) (d : Dom) : Settled :=
  let d0 := { d with
    cvSubmitBtn := d.cvSubmitBtn.map (fun _ => true)
    cvSpinner := d.cvSpinner.map (fun _ => false)
    requests := d.requests + 1 }
  match parseStep o with
  | .error _ =>
      { dom := cvFinally (cvCatch d0), successRan := false
        successThrew := false, failureRan := true }
  | .ok data =>
      { dom := cvFinally (cvSuccess data d0), successRan := true
        successThrew := false, failureRan := false }

/-- One candidate entry of the scores payload. -/
structure Candidate where
  name : String
  score : Int

/-- The sort comparator `(a, b) => b.score - a.score` admits a before b
exactly when the comparator value is at most zero. -/
def scoreDescLe (a b : Candidate) : Bool :=
  b.score ≤ a.score

/-- Models `data.sort((a, b) => b.score - a.score)`: a stable sort by score
descending. -/
def sortByScoreDesc (data : List Candidate) : List Candidate :=
  data.mergeSort scoreDescLe

/-- Bar fill colour chosen from the score thresholds. -/
def barBackground (score : Int) : String :=
  if 75 ≤ score then "rgba(40, 167, 69, 0.7)"
  else if 50 ≤ score then "rgba(255, 193, 7, 0.7)"
  else "rgba(220, 53, 69, 0.7)"

/-- Bar border colour chosen from the score thresholds. -/
def barBorder (score : Int) : String :=
  if 75 ≤ score then "rgb(40, 167, 69)"
  else if 50 ≤ score then "rgb(255, 193, 7)"
  else "rgb(220, 53, 69)"

/-- The data lists handed to the charting library for the candidate scores
bar chart. -/
structure ChartSpec where
  labels : List String
  data : List Int
  backgroundColor : List String
  borderColor : List String

/-- Models createCandidateScoresChart on a fetched payload: sort by score
descending, then extract labels, data and colours from the sorted list. -/
def createCandidateScoresChart (data : List Candidate) : ChartSpec :=
  let sorted := sortByScoreDesc data
  { labels := sorted.map Candidate.name
    data := sorted.map Candidate.score
    backgroundColor := sorted.map (fun c => barBackground c.score)
    borderColor := sorted.map (fun c => barBorder c.score) }

/-- A concrete DOM with every optional element present and empty, used to
evaluate the model at concrete inputs. -/
def emptyDom : Dom :=
  { jdSubmitBtn := some false
    jdSpinner := some true
    cvSubmitBtn := some false
    cvSpinner := some true
    alertsContainer := some []
    timers := []
    jdResults := some ⟨["d-none"], []⟩
    errorLog := 0
    navTargets := []
    requests := 0 }

/-- A concrete DOM whose alerts container is absent from the document. -/
def noAlertsDom : Dom :=
  { emptyDom with alertsContainer := none }

/-- A field value is handled by the `|| []` defaulting: it is falsy or an
array. -/
def fieldOk (v : JVal) : Bool :=
  !jsTruthy v || v.isArr

@[simp] theorem showAlert_jdSubmitBtn (t m : String) (d : Dom) :
    (showAlert t m d).jdSubmitBtn = d.jdSubmitBtn := by
  unfold showAlert; cases d.alertsContainer <;> rfl

@[simp] theorem showAlert_jdSpinner (t m : String) (d : Dom) :
    (showAlert t m d).jdSpinner = d.jdSpinner := by
  unfold showAlert; cases d.alertsContainer <;> rfl

@[simp] theorem showAlert_cvSubmitBtn (t m : String) (d : Dom) :
    (showAlert t m d).cvSubmitBtn = d.cvSubmitBtn := by
  unfold showAlert; cases d.alertsContainer <;> rfl

@[simp] theorem showAlert_cvSpinner (t m : String) (d : Dom) :
    (showAlert t m d).cvSpinner = d.cvSpinner := by
  unfold showAlert; cases d.alertsContainer <;> rfl

@[simp] theorem showAlert_jdResults (t m : String) (d : Dom) :
    (showAlert t m d).jdResults = d.jdResults := by
  unfold showAlert; cases d.alertsContainer <;> rfl

@[simp] theorem showAlert_navTargets (t m : String) (d : Dom) :
    (showAlert t m d).navTargets = d.navTargets := by
  unfold showAlert; cases d.alertsContainer <;> rfl

@[simp] theorem showAlert_errorLog (t m : String) (d : Dom) :
    (showAlert t m d).errorLog = d.errorLog := by
  unfold showAlert; cases d.alertsContainer <;> rfl

@[simp] theorem showAlert_requests (t m : String) (d : Dom) :
    (showAlert t m d).requests = d.requests := by
  unfold showAlert; cases d.alertsContainer <;> rfl

@[simp] theorem showAlert_alertsContainer (t m : String) (d : Dom) :
    (showAlert t m d).alertsContainer
      = d.alertsContainer.map (fun as => as ++ [⟨t, m⟩]) := by
  unfold showAlert; cases h : d.alertsContainer <;> simp [h]

@[simp] theorem jdSuccess_jdSubmitBtn (data : JdData) (d : Dom) :
    (jdSuccess data d).1.jdSubmitBtn = d.jdSubmitBtn := by
  simp only [jdSuccess]; split <;> simp

@[simp] theorem jdSuccess_jdSpinner (data : JdData) (d : Dom) :
    (jdSuccess data d).1.jdSpinner = d.jdSpinner := by
  simp only [jdSuccess]; split <;> simp

@[simp] theorem cvSuccess_cvSubmitBtn (data : CvData) (d : Dom) :
    (cvSuccess data d).cvSubmitBtn = d.cvSubmitBtn := by
  simp only [cvSuccess]
  cases data.redirect with
  | none => simp
  | some url => by_cases h : url = "" <;> simp [h]

@[simp] theorem cvSuccess_cvSpinner (data : CvData) (d : Dom) :
    (cvSuccess data d).cvSpinner = d.cvSpinner := by
  simp only [cvSuccess]
  cases data.redirect with
  | none => simp
  | some url => by_cases h : url = "" <;> simp [h]

@[simp] theorem cvSuccess_jdResults (data : CvData) (d : Dom) :
    (cvSuccess data d).jdResults = d.jdResults := by
  simp only [cvSuccess]
  cases data.redirect with
  | none => simp
  | some url => by_cases h : url = "" <;> simp [h]

@[simp] theorem jdCatch_jdSubmitBtn (d : Dom) :
    (jdCatch d).jdSubmitBtn = d.jdSubmitBtn := by
  simp [jdCatch]

@[simp] theorem jdCatch_jdSpinner (d : Dom) :
    (jdCatch d).jdSpinner = d.jdSpinner := by
  simp [jdCatch]

@[simp] theorem jdCatch_errorLog (d : Dom) :
    (jdCatch d).errorLog = d.errorLog + 1 := by
  simp [jdCatch]

@[simp] theorem jdCatch_alertsContainer (d : Dom) :
    (jdCatch d).alertsContainer
      = d.alertsContainer.map (fun as => as ++ [⟨"danger", jdFailMsg⟩]) := by
  simp [jdCatch]

@[simp] theorem jdCatch_requests (d : Dom) :
    (jdCatch d).requests = d.requests := by
  simp [jdCatch]

@[simp] theorem cvCatch_cvSubmitBtn (d : Dom) :
    (cvCatch d).cvSubmitBtn = d.cvSubmitBtn := by
  simp [cvCatch]

@[simp] theorem cvCatch_cvSpinner (d : Dom) :
    (cvCatch d).cvSpinner = d.cvSpinner := by
  simp [cvCatch]

@[simp] theorem cvCatch_errorLog (d : Dom) :
    (cvCatch d).errorLog = d.errorLog + 1 := by
  simp [cvCatch]

@[simp] theorem cvCatch_alertsContainer (d : Dom) :
    (cvCatch d).alertsContainer
      = d.alertsContainer.map (fun as => as ++ [⟨"danger", cvFailMsg⟩]) := by
  simp [cvCatch]

@[simp] theorem cvCatch_requests (d : Dom) :
    (cvCatch d).requests = d.requests := by
  simp [cvCatch]

@[simp] theorem jdFinally_jdSubmitBtn (d : Dom) :
    (jdFinally d).jdSubmitBtn = d.jdSubmitBtn.map (fun _ => false) := rfl

@[simp] theorem jdFinally_jdSpinner (d : Dom) :
    (jdFinally d).jdSpinner = d.jdSpinner.map (fun _ => true) := rfl

@[simp] theorem jdFinally_errorLog (d : Dom) :
    (jdFinally d).errorLog = d.errorLog := rfl

@[simp] theorem jdFinally_alertsContainer (d : Dom) :
    (jdFinally d).alertsContainer = d.alertsContainer := rfl

@[simp] theorem jdFinally_requests (d : Dom) :
    (jdFinally d).requests = d.requests := rfl

@[simp] theorem cvFinally_cvSubmitBtn (d : Dom) :
    (cvFinally d).cvSubmitBtn = d.cvSubmitBtn.map (fun _ => false) := rfl

@[simp] theorem cvFinally_cvSpinner (d : Dom) :
    (cvFinally d).cvSpinner = d.cvSpinner.map (fun _ => true) := rfl

@[simp] theorem cvFinally_errorLog (d : Dom) :
    (cvFinally d).errorLog = d.errorLog := rfl

@[simp] theorem cvFinally_alertsContainer (d : Dom) :
    (cvFinally d).alertsContainer = d.alertsContainer := rfl

@[simp] theorem cvFinally_requests (d : Dom) :
    (cvFinally d).requests = d.requests := rfl

@[simp] theorem cvFinally_navTargets (d : Dom) :
    (cvFinally d).navTargets = d.navTargets := rfl

@[simp] theorem cvFinally_jdResults (d : Dom) :
    (cvFinally d).jdResults = d.jdResults := rfl

@[simp] theorem optMapConst {α β γ : Type} (o : Option α) (f : α → β) (c : γ) :
    (o.map f).map (fun _ => c) = o.map (fun _ => c) := by
  cases o <;> rfl

theorem parseStep_error_of_not_parsedOk {β : Type} (o : FetchOutcome β)
    (h : parsedOk o = false) : parseStep o = .error () := by
  cases o with
  | netError => rfl
  | response st body =>
      cases body with
      | ok v =>
          simp only [parsedOk] at h
          simp [parseStep, h]
      | error e =>
          cases e
          cases hr : respOk st <;> simp [parseStep, hr]

theorem jdSubmit_clears_busy (o : FetchOutcome JdData) (d : Dom) :
    (jdSubmit o d).dom.jdSubmitBtn = d.jdSubmitBtn.map (fun _ => false) ∧
    (jdSubmit o d).dom.jdSpinner = d.jdSpinner.map (fun _ => true) := by
  simp only [jdSubmit]
  split
  · constructor <;> simp
  · split <;> constructor <;> simp

theorem cvSubmit_clears_busy (o : FetchOutcome CvData) (d : Dom) :
    (cvSubmit o d).dom.cvSubmitBtn = d.cvSubmitBtn.map (fun _ => false) ∧
    (cvSubmit o d).dom.cvSpinner = d.cvSpinner.map (fun _ => true) := by
  simp only [cvSubmit]
  split
  · constructor <;> simp
  · constructor <;> simp

theorem jdSubmit_flags (o : FetchOutcome JdData) (d : Dom) :
    (jdSubmit o d).successRan = parsedOk o ∧
    (jdSubmit o d).failureRan = (!parsedOk o || (jdSubmit o d).successThrew) ∧
    ((jdSubmit o d).successRan || (jdSubmit o d).failureRan) = true := by
  cases o with
  | netError => exact ⟨rfl, rfl, rfl⟩
  | response st body =>
      cases body with
      | error e =>
          cases e
          cases hr : respOk st <;> simp [jdSubmit, parseStep, parsedOk, hr]
      | ok data =>
          cases hr : respOk st with
          | false => simp [jdSubmit, parseStep, parsedOk, hr]
          | true =>
              simp only [jdSubmit, parseStep, hr, if_pos]
              split <;> simp [parsedOk, hr]

theorem cvSubmit_flags (o : FetchOutcome CvData) (d : Dom) :
    (cvSubmit o d).successRan = parsedOk o ∧
    (cvSubmit o d).failureRan = !parsedOk o ∧
    (cvSubmit o d).successThrew = false ∧
    ((cvSubmit o d).successRan || (cvSubmit o d).failureRan) = true := by
  cases o with
  | netError => exact ⟨rfl, rfl, rfl, rfl⟩
  | response st body =>
      cases body with
      | error e =>
          cases e
          cases hr : respOk st <;> simp [cvSubmit, parseStep, parsedOk, hr]
      | ok data =>
          cases hr : respOk st <;> simp [cvSubmit, parseStep, parsedOk, hr]

theorem createSection_ok_of_fieldOk (t : String) (v : JVal) (h : fieldOk v = true) :
    ∃ n, createAnalysisSection t (jsOrEmptyArray v) = .ok n := by
  cases v with
  | undef => exact ⟨_, rfl⟩
  | null => exact ⟨_, rfl⟩
  | boolean b =>
      cases b with
      | false => exact ⟨_, rfl⟩
      | true => simp [fieldOk, jsTruthy, JVal.isArr] at h
  | number n =>
      by_cases hn : n = 0
      · subst hn; exact ⟨_, rfl⟩
      · simp [fieldOk, jsTruthy, JVal.isArr, hn] at h
  | string s =>
      by_cases hs : s = ""
      · subst hs; exact ⟨_, rfl⟩
      · simp [fieldOk, jsTruthy, JVal.isArr, hs] at h
  | array xs =>
      cases xs with
      | nil => exact ⟨_, rfl⟩
      | cons x t2 => exact ⟨_, rfl⟩

theorem buildSections_ok_of_fieldsOk (a : Analysis)
    (h1 : fieldOk a.skills = true) (h2 : fieldOk a.experience = true)
    (h3 : fieldOk a.qualifications = true) (h4 : fieldOk a.responsibilities = true) :
    ∃ ss, buildSections a = .ok ss := by
  obtain ⟨n1, e1⟩ := createSection_ok_of_fieldOk "Required Skills" a.skills h1
  obtain ⟨n2, e2⟩ := createSection_ok_of_fieldOk "Experience Requirements" a.experience h2
  obtain ⟨n3, e3⟩ := createSection_ok_of_fieldOk "Qualifications" a.qualifications h3
  obtain ⟨n4, e4⟩ := createSection_ok_of_fieldOk "Responsibilities" a.responsibilities h4
  refine ⟨[n1, n2, n3, n4], ?_⟩
  simp only [buildSections, e1, e2, e3, e4]
  rfl

/-- Claim C1: for every upload submission (job-description or resume) and
every outcome of the request chain (HTTP success, non-2xx status, network
failure, or an exception thrown by the success-path handler, which the model
covers through analysis payloads whose fields make populateJdResults throw),
once the request settles the submit control's disabled flag is false and the
loading indicator carries the hiding class, whenever those elements exist;
the busy-clearing finally-step runs unconditionally on every reachable
path. -/
theorem claim1_busy_always_cleared (oj : FetchOutcome JdData)
    (ocv : FetchOutcome CvData) (dj dc : Dom) :
    (jdSubmit oj dj).dom.jdSubmitBtn = dj.jdSubmitBtn.map (fun _ => false) ∧
    (jdSubmit oj dj).dom.jdSpinner = dj.jdSpinner.map (fun _ => true) ∧
    (cvSubmit ocv dc).dom.cvSubmitBtn = dc.cvSubmitBtn.map (fun _ => false) ∧
    (cvSubmit ocv dc).dom.cvSpinner = dc.cvSpinner.map (fun _ => true) :=
  ⟨(jdSubmit_clears_busy oj dj).1, (jdSubmit_clears_busy oj dj).2,
   (cvSubmit_clears_busy ocv dc).1, (cvSubmit_clears_busy ocv dc).2⟩

/-- Claim C2, counterexample: a response with HTTP status 200 whose body
fails to parse as JSON runs the failure branch and not the success branch,
refuting the claim that every response with status in the 200 to 299 range
reaches the success branch. -/
theorem claim2_counterexample :
    respOk 200 = true ∧
    (jdSubmit (.response 200 (.error ())) emptyDom).successRan = false ∧
    (jdSubmit (.response 200 (.error ())) emptyDom).failureRan = true :=
  ⟨rfl, rfl, rfl⟩

/-- Claim C2, amended: per submission the success branch is entered exactly
when the HTTP status is in the 200 to 299 range and the body parses as JSON;
the failure branch runs exactly when the status is outside that range, the
body fails to parse, or the success handler throws after being entered (so
exactly one branch runs whenever the success handler does not throw, both
run when it does, and at least one branch always runs).  The resume success
handler never throws. -/
theorem claim2_branches (oj : FetchOutcome JdData) (ocv : FetchOutcome CvData)
    (dj dc : Dom) :
    (jdSubmit oj dj).successRan = parsedOk oj ∧
    (jdSubmit oj dj).failureRan = (!parsedOk oj || (jdSubmit oj dj).successThrew) ∧
    ((jdSubmit oj dj).successRan || (jdSubmit oj dj).failureRan) = true ∧
    (cvSubmit ocv dc).successRan = parsedOk ocv ∧
    (cvSubmit ocv dc).failureRan = !parsedOk ocv ∧
    (cvSubmit ocv dc).successThrew = false ∧
    ((cvSubmit ocv dc).successRan || (cvSubmit ocv dc).failureRan) = true :=
  ⟨(jdSubmit_flags oj dj).1, (jdSubmit_flags oj dj).2.1, (jdSubmit_flags oj dj).2.2,
   (cvSubmit_flags ocv dc).1, (cvSubmit_flags ocv dc).2.1,
   (cvSubmit_flags ocv dc).2.2.1, (cvSubmit_flags ocv dc).2.2.2⟩

/-- Claim C3, counterexample: a truthy non-array skills value (here the
string Python) makes the renderer throw a TypeError while building the
skills section, refuting the claim that a malformed value in any single
field is treated as empty and the renderer never throws. -/
theorem claim3_counterexample :
    (populateJdResults ⟨.string "Python", .undef, .undef, .undef⟩
      (some ⟨[], []⟩)).2 = some () :=
  rfl

/-- Claim C3, amended: an absent or otherwise falsy value (undefined, null,
false, 0, the empty string) in any single field is treated as an empty
sequence, and when every field is falsy or an array the renderer throws no
exception; a truthy non-array field value, however, makes it throw. -/
theorem claim3_falsy_fields_safe (a : Analysis) (oc : Option Container)
    (title : String) (v : JVal)
    (h1 : fieldOk a.skills = true) (h2 : fieldOk a.experience = true)
    (h3 : fieldOk a.qualifications = true) (h4 : fieldOk a.responsibilities = true)
    (h5 : jsTruthy v = false) :
    (populateJdResults a oc).2 = none ∧
    createAnalysisSection title (jsOrEmptyArray v)
      = createAnalysisSection title (.array []) := by
  constructor
  · obtain ⟨ss, hss⟩ := buildSections_ok_of_fieldsOk a h1 h2 h3 h4
    cases oc with
    | none => rfl
    | some c => simp [populateJdResults, hss]
  · simp [jsOrEmptyArray, h5]

/-- Witness for the amended claim C3 at a concrete analysis whose fields are
each falsy or an array, and a concrete falsy field value. -/
theorem claim3_witness :
    fieldOk (JVal.undef) = true ∧ fieldOk (JVal.null) = true ∧
    fieldOk (JVal.boolean false) = true ∧ fieldOk (JVal.array ["A"]) = true ∧
    jsTruthy JVal.undef = false ∧
    ((populateJdResults ⟨.undef, .null, .boolean false, .array ["A"]⟩
        (some ⟨[], []⟩)).2 = none ∧
      createAnalysisSection "Required Skills" (jsOrEmptyArray .undef)
        = createAnalysisSection "Required Skills" (.array [])) :=
  ⟨rfl, rfl, rfl, rfl, rfl,
   claim3_falsy_fields_safe ⟨.undef, .null, .boolean false, .array ["A"]⟩
     (some ⟨[], []⟩) "Required Skills" .undef rfl rfl rfl rfl rfl⟩

/-- Claim C4: on every failed upload (network failure, malformed response
body, or non-2xx status) the failure is handled uniformly by the local catch
handler: it runs (and the success handler does not), exactly one error is
logged to the console, the fixed danger notification is handed to the alert
display (appended whenever the alerts container exists), and no retry
request is issued (the request count still rose by exactly the one original
request). -/
theorem claim4_uniform_failure (oj : FetchOutcome JdData)
    (ocv : FetchOutcome CvData) (dj dc : Dom)
    (hj : parsedOk oj = false) (hc : parsedOk ocv = false) :
    (jdSubmit oj dj).failureRan = true ∧
    (jdSubmit oj dj).successRan = false ∧
    (jdSubmit oj dj).dom.errorLog = dj.errorLog + 1 ∧
    (jdSubmit oj dj).dom.alertsContainer
      = dj.alertsContainer.map (fun as => as ++ [⟨"danger", jdFailMsg⟩]) ∧
    (jdSubmit oj dj).dom.requests = dj.requests + 1 ∧
    (cvSubmit ocv dc).failureRan = true ∧
    (cvSubmit ocv dc).successRan = false ∧
    (cvSubmit ocv dc).dom.errorLog = dc.errorLog + 1 ∧
    (cvSubmit ocv dc).dom.alertsContainer
      = dc.alertsContainer.map (fun as => as ++ [⟨"danger", cvFailMsg⟩]) ∧
    (cvSubmit ocv dc).dom.requests = dc.requests + 1 := by
  have hje := parseStep_error_of_not_parsedOk oj hj
  have hce := parseStep_error_of_not_parsedOk ocv hc
  simp [jdSubmit, cvSubmit, hje, hce]

/-- Witness for claim C4 at a concrete network failure on each form. -/
theorem claim4_witness :
    parsedOk (FetchOutcome.netError : FetchOutcome JdData) = false ∧
    parsedOk (FetchOutcome.netError : FetchOutcome CvData) = false ∧
    ((jdSubmit .netError emptyDom).failureRan = true ∧
      (jdSubmit .netError emptyDom).successRan = false ∧
      (jdSubmit .netError emptyDom).dom.errorLog = emptyDom.errorLog + 1 ∧
      (jdSubmit .netError emptyDom).dom.alertsContainer
        = emptyDom.alertsContainer.map (fun as => as ++ [⟨"danger", jdFailMsg⟩]) ∧
      (jdSubmit .netError emptyDom).dom.requests = emptyDom.requests + 1 ∧
      (cvSubmit .netError emptyDom).failureRan = true ∧
      (cvSubmit .netError emptyDom).successRan = false ∧
      (cvSubmit .netError emptyDom).dom.errorLog = emptyDom.errorLog + 1 ∧
      (cvSubmit .netError emptyDom).dom.alertsContainer
        = emptyDom.alertsContainer.map (fun as => as ++ [⟨"danger", cvFailMsg⟩]) ∧
      (cvSubmit .netError emptyDom).dom.requests = emptyDom.requests + 1) :=
  ⟨rfl, rfl, claim4_uniform_failure .netError .netError emptyDom emptyDom rfl rfl⟩

/-- Claim C5: for the input whose skills are the array with Go then Rust and
whose other fields are absent, the renderer produces exactly four sections in
the fixed order skills, experience, qualifications, responsibilities (the
source reads the fields by name, so input key order cannot influence the
output); the skills section holds a two-item list with Go then Rust in input
order, and each other section shows the placeholder text No items detected.
The container is revealed (d-none removed, fade-in added) and no exception is
thrown. -/
theorem claim5_go_rust_render :
    populateJdResults ⟨.array ["Go", "Rust"], .undef, .undef, .undef⟩
      (some ⟨["d-none"], []⟩)
    = (some ⟨["fade-in"],
        [.mk "div" "mb-4" ""
          [.mk "h5" "" "Required Skills" [],
           .mk "ul" "list-group" ""
             [.mk "li" "list-group-item" "Go" [],
              .mk "li" "list-group-item" "Rust" []]],
         .mk "div" "mb-4" ""
          [.mk "h5" "" "Experience Requirements" [],
           .mk "p" "text-muted fst-italic" "No items detected" []],
         .mk "div" "mb-4" ""
          [.mk "h5" "" "Qualifications" [],
           .mk "p" "text-muted fst-italic" "No items detected" []],
         .mk "div" "mb-4" ""
          [.mk "h5" "" "Responsibilities" [],
           .mk "p" "text-muted fst-italic" "No items detected" []]]⟩, none) :=
  rfl

/-- Claim C6: for every pair of inputs, rendering a second input into the
container produced by a first render leaves exactly the child content that a
direct render of the second input would produce — nothing from the first call
accumulates, because the renderer clears the container before appending. -/
theorem claim6_no_accumulation (a1 a2 : Analysis) (c : Container) :
    Option.map Container.children
      ((populateJdResults a2 ((populateJdResults a1 (some c)).1)).1)
    = Option.map Container.children ((populateJdResults a2 (some c)).1) := by
  cases h1 : buildSections a1 <;> cases h2 : buildSections a2 <;>
    simp [populateJdResults, h1, h2]

/-- Claim C7, counterexample: a resume success response whose redirect field
is present but holds the empty string (which is falsy in JavaScript) runs the
success branch yet triggers no navigation, refuting the claim that every
success response containing a redirect field navigates exactly once. -/
theorem claim7_counterexample :
    (cvSubmit (.response 200 (.ok ⟨some ""⟩)) emptyDom).successRan = true ∧
    (cvSubmit (.response 200 (.ok ⟨some ""⟩)) emptyDom).dom.navTargets = [] :=
  ⟨rfl, rfl⟩

/-- Claim C7, amended: for every resume-upload success response carrying a
non-empty redirect string, the coordinator appends exactly one navigation to
that target and leaves the jd-results container untouched; when the redirect
field is absent (or empty, by the counterexample) no navigation occurs and
the container is likewise untouched. -/
theorem claim7_redirect (d1 d2 : Dom) (st : Nat) (url : String) (dat2 : CvData)
    (hok : respOk st = true) (hne : url ≠ "") (hnone : dat2.redirect = none) :
    (cvSubmit (.response st (.ok ⟨some url⟩)) d1).dom.navTargets
      = d1.navTargets ++ [url] ∧
    (cvSubmit (.response st (.ok ⟨some url⟩)) d1).dom.jdResults = d1.jdResults ∧
    (cvSubmit (.response st (.ok dat2)) d2).dom.navTargets = d2.navTargets ∧
    (cvSubmit (.response st (.ok dat2)) d2).dom.jdResults = d2.jdResults := by
  simp [cvSubmit, parseStep, hok, cvSuccess, hnone, hne]

/-- Witness for the amended claim C7: status 200, redirect /dashboard on one
form state and an absent redirect on another. -/
theorem claim7_witness :
    respOk 200 = true ∧ "/dashboard" ≠ "" ∧
    (CvData.mk none).redirect = none ∧
    ((cvSubmit (.response 200 (.ok ⟨some "/dashboard"⟩)) emptyDom).dom.navTargets
        = emptyDom.navTargets ++ ["/dashboard"] ∧
      (cvSubmit (.response 200 (.ok ⟨some "/dashboard"⟩)) emptyDom).dom.jdResults
        = emptyDom.jdResults ∧
      (cvSubmit (.response 200 (.ok (CvData.mk none))) emptyDom).dom.navTargets
        = emptyDom.navTargets ∧
      (cvSubmit (.response 200 (.ok (CvData.mk none))) emptyDom).dom.jdResults
        = emptyDom.jdResults) :=
  ⟨rfl, by decide, rfl,
   claim7_redirect emptyDom emptyDom 200 "/dashboard" (CvData.mk none)
     rfl (by decide) rfl⟩

theorem itemNodes_map (l : List String) :
    (l.map listItemNode).map (fun i => (i.tag, i.text, i.children))
      = l.map (fun s => ("li", s, ([] : List Node))) := by
  induction l with
  | nil => rfl
  | cons a l ih => simp only [List.map_cons, ih]; rfl

theorem sectionItemNodes_of_ul (title : String) (l : List Node) :
    sectionItemNodes (.mk "div" "mb-4" ""
      [.mk "h5" "" title [], .mk "ul" "list-group" "" l]) = l := by
  simp [sectionItemNodes, Node.tag, Node.children]

/-- Claim C8: for every item string in every section, the renderer inserts
the item via textContent: the rendered item nodes of the section are exactly
one list item per input string, in input order, whose tag is li, whose text
content equals the input string verbatim (even when it contains HTML syntax)
and which have no child nodes — the string is never interpreted as
markup. -/
theorem claim8_items_plain_text (title : String) (xs : List String) :
    Except.map (fun n => (sectionItemNodes n).map (fun i => (i.tag, i.text, i.children)))
      (createAnalysisSection title (.array xs))
    = .ok (xs.map (fun s => ("li", s, ([] : List Node)))) := by
  cases xs with
  | nil => rfl
  | cons x t =>
      have h0 : createAnalysisSection title (.array (x :: t))
          = .ok (.mk "div" "mb-4" ""
              [.mk "h5" "" title [],
               .mk "ul" "list-group" "" ((x :: t).map listItemNode)]) := rfl
      rw [h0]
      show Except.ok ((sectionItemNodes (.mk "div" "mb-4" ""
              [.mk "h5" "" title [],
               .mk "ul" "list-group" "" ((x :: t).map listItemNode)])).map
            (fun i => (i.tag, i.text, i.children)))
        = Except.ok ((x :: t).map (fun s => ("li", s, ([] : List Node))))
      rw [sectionItemNodes_of_ul, itemNodes_map]

/-- Claim C9: a call to the alert display while the alerts container element
is absent from the document performs no DOM mutation, schedules no dismissal
timer and returns without error: the DOM state is returned unchanged, so
upload success and failure notifications are silently dropped. -/
theorem claim9_alerts_container_absent (ty msg : String) (d : Dom)
    (h : d.alertsContainer = none) : showAlert ty msg d = d := by
  simp [showAlert, h]

/-- Witness for claim C9 at a concrete DOM lacking the alerts container. -/
theorem claim9_witness :
    noAlertsDom.alertsContainer = none ∧
    showAlert "success" "Resume uploaded and analyzed successfully!" noAlertsDom
      = noAlertsDom :=
  ⟨rfl, claim9_alerts_container_absent "success"
    "Resume uploaded and analyzed successfully!" noAlertsDom rfl⟩

/-- Claim C10: for every candidate-scores payload, the chart receives the
bars in non-increasing order of score regardless of the backend order: the
data list handed to the chart is a permutation of the input scores sorted in
non-increasing order, and labels and data are extracted from the same sorted
list. -/
theorem claim10_scores_sorted (data : List Candidate) :
    List.Pairwise (fun x y : Int => y ≤ x) ((createCandidateScoresChart data).data) ∧
    ((createCandidateScoresChart data).data).Perm (data.map Candidate.score) ∧
    (createCandidateScoresChart data).labels
      = (sortByScoreDesc data).map Candidate.name ∧
    (createCandidateScoresChart data).data
      = (sortByScoreDesc data).map Candidate.score := by
  refine ⟨?_, ?_, rfl, rfl⟩
  · have htrans : ∀ a b c : Candidate, scoreDescLe a b = true →
        scoreDescLe b c = true → scoreDescLe a c = true := by
      intro a b c hab hbc
      simp only [scoreDescLe, decide_eq_true_eq] at hab hbc ⊢
      exact le_trans hbc hab
    have htotal : ∀ a b : Candidate, (scoreDescLe a b || scoreDescLe b a) = true := by
      intro a b
      simp only [scoreDescLe, Bool.or_eq_true, decide_eq_true_eq]
      exact le_total _ _
    have hs := List.sorted_mergeSort htrans htotal data
    simp only [createCandidateScoresChart, sortByScoreDesc]
    rw [List.pairwise_map]
    refine hs.imp ?_
    intro a b h
    simpa [scoreDescLe] using h
  · simp only [createCandidateScoresChart, sortByScoreDesc]
    exact List.Perm.map Candidate.score (List.mergeSort_perm data scoreDescLe)
